import Mathlib

/-!
Verification of the ConradKurth/forecasting inventory-sync core against its
specification.  Go functions are shallowly embedded as Lean definitions over
explicit state; effectful code is modelled by explicit effect traces and
state passing.  Machine integers are modelled as `Int`/`Nat` (no overflow is
relevant to the verified properties); Go errors are modelled by `Except` /
`Option`.
-/

deriving instance DecidableEq for Except

namespace Forecasting

/-! ## Domain normalization (backend/pkg/shopify, `NormalizeDomain`)

Go strings are sequences of bytes, but `NormalizeDomain` only manipulates
ASCII prefixes/suffixes and Unicode whitespace, so we model strings as
`List Char` and wrap into `String` at the boundary. -/

/-- The set of code points accepted by Go's `unicode.IsSpace` (the Unicode
White_Space property, as used by `strings.TrimSpace`). -/
def goIsSpace (c : Char) : Bool :=
  c.toNat == 0x09 || c.toNat == 0x0A || c.toNat == 0x0B || c.toNat == 0x0C ||
  c.toNat == 0x0D || c.toNat == 0x20 || c.toNat == 0x85 || c.toNat == 0xA0 ||
  c.toNat == 0x1680 || (0x2000 ≤ c.toNat && c.toNat ≤ 0x200A) ||
  c.toNat == 0x2028 || c.toNat == 0x2029 || c.toNat == 0x202F ||
  c.toNat == 0x205F || c.toNat == 0x3000

/-- Go `strings.TrimSpace`: drop leading and trailing whitespace. -/
def trimSpace (l : List Char) : List Char :=
  ((l.dropWhile goIsSpace).reverse.dropWhile goIsSpace).reverse

/-- Go `strings.TrimPrefix` (renamed here to fit the development's naming
scheme): remove `p` from the front of `l` if present. -/
def trimLeading (l p : List Char) : List Char :=
  if p.isPrefixOf l then l.drop p.length else l

/-- Go `strings.TrimSuffix`: remove `p` from the end of `l` if present
(at most one occurrence). -/
def trimTrailing (l p : List Char) : List Char :=
  if p.isSuffixOf l then l.take (l.length - p.length) else l

/-- The literal `"https://"`. -/
def httpsScheme : List Char := "https://".toList

/-- The literal `"http://"`. -/
def httpScheme : List Char := "http://".toList

/-- The literal `".myshopify.com"`. -/
def myshopifySuffix : List Char := ".myshopify.com".toList

/-- `NormalizeDomain` from backend/pkg/shopify (src/unnamed/part_003),
translated clause by clause from the Go source. -/
def normalizeDomainList (l : List Char) : List Char :=
  let d := trimSpace l
  if d = [] then []
  else
    let d := trimLeading d httpsScheme
    let d := trimLeading d httpScheme
    let d := trimTrailing d ['/']
    if myshopifySuffix.isSuffixOf d then d else d ++ myshopifySuffix

/-- String-level wrapper matching the Go signature. -/
def NormalizeDomain (s : String) : String :=
  ⟨normalizeDomainList s.data⟩

/-- The amended spec-side description of domain normalization: trim
surrounding whitespace; strip a leading `https://`, then a leading
`http://`; strip at most one trailing slash; append `.myshopify.com`
when that suffix is missing.  Written independently of
`normalizeDomainList` (explicit `drop`/`dropLast` instead of the trim
helpers) for comparison with the code-side definition. -/
def specNormalizeDomain (s : String) : String :=
  let d0 := trimSpace s.data
  if d0 = [] then "" else
  let d1 := if httpsScheme.isPrefixOf d0 then d0.drop httpsScheme.length else d0
  let d2 := if httpScheme.isPrefixOf d1 then d1.drop httpScheme.length else d1
  let d3 := if ['/'].isSuffixOf d2 then d2.dropLast else d2
  ⟨if myshopifySuffix.isSuffixOf d3 then d3 else d3 ++ myshopifySuffix⟩

/-! ## Enum normalization (`normalizeShopifyData`, src/unnamed/part_024)

The generated sqlc enum types (`core.ProductStatus` and friends) are Go
string types whose values come from the `CREATE TYPE ... AS ENUM`
statements of migration 001 (src/unnamed/part_006).  We model each one as
an inductive with its database string rendering, and the `switch`
statements of `normalizeShopifyData` as definitions over strings. -/

/-- Database enum `product_status`. -/
inductive ProductStatus | active | archived | draft
deriving DecidableEq

/-- Database string value of a `ProductStatus` (migration 001). -/
def ProductStatus.toDbString : ProductStatus → String
  | .active => "active"
  | .archived => "archived"
  | .draft => "draft"

/-- Database enum `financial_status`. -/
inductive FinancialStatus
  | pending | authorized | partiallyPaid | paid | partiallyRefunded
  | refunded | voided
deriving DecidableEq

/-- Database string value of a `FinancialStatus` (migration 001). -/
def FinancialStatus.toDbString : FinancialStatus → String
  | .pending => "pending"
  | .authorized => "authorized"
  | .partiallyPaid => "partially_paid"
  | .paid => "paid"
  | .partiallyRefunded => "partially_refunded"
  | .refunded => "refunded"
  | .voided => "voided"

/-- Database enum `fulfillment_status`; `nullVal` is the enum value
`'null'`, `partialVal` the enum value `'partial'`. -/
inductive FulfillmentStatus | fulfilled | nullVal | partialVal | restocked
deriving DecidableEq

/-- Database string value of a `FulfillmentStatus` (migration 001). -/
def FulfillmentStatus.toDbString : FulfillmentStatus → String
  | .fulfilled => "fulfilled"
  | .nullVal => "null"
  | .partialVal => "partial"
  | .restocked => "restocked"

/-- The `switch product.Status` statement of `normalizeShopifyData`. -/
def normalizeProductStatus (s : String) : ProductStatus :=
  if s = "active" then .active
  else if s = "archived" then .archived
  else if s = "draft" then .draft
  else .draft

/-- The `switch order.FinancialStatus` statement of `normalizeShopifyData`. -/
def normalizeFinancialStatus (s : String) : FinancialStatus :=
  if s = "pending" then .pending
  else if s = "authorized" then .authorized
  else if s = "partially_paid" then .partiallyPaid
  else if s = "paid" then .paid
  else if s = "partially_refunded" then .partiallyRefunded
  else if s = "refunded" then .refunded
  else if s = "voided" then .voided
  else .pending

/-- The `order.FulfillmentStatus` handling of `normalizeShopifyData`:
the raw field is a nullable string (`*string` in Go). -/
def normalizeFulfillmentStatus (o : Option String) : FulfillmentStatus :=
  match o with
  | none => .nullVal
  | some s =>
      if s = "fulfilled" then .fulfilled
      else if s = "partial" then .partialVal
      else if s = "restocked" then .restocked
      else .nullVal

/-! ## Typed IDs (backend/pkg/id)

Go's generic `ID[T Resource]` is a phantom-typed string; the type parameter
is modelled as an explicit `Resource` value.  `xid.New().String()` (the
random sortable suffix) is an explicit parameter. -/

/-- The entity types implementing the `Resource` interface
(backend/pkg/id/prefix.go). -/
inductive Resource
  | user | store | shopifyStore | shopifyUser | product | productVariant
  | inventoryItem | location | order | orderLineItem | inventoryLevel
  | platformIntegration | syncState
deriving DecidableEq

/-- The `Prefix()` method of each resource (backend/pkg/id/prefix.go). -/
def Resource.prefixOf : Resource → String
  | .user => "usr_"
  | .store => "str_"
  | .shopifyStore => "sps_"
  | .shopifyUser => "spu_"
  | .product => "prd_"
  | .productVariant => "var_"
  | .inventoryItem => "inv_"
  | .location => "loc_"
  | .order => "ord_"
  | .orderLineItem => "oli_"
  | .inventoryLevel => "ivl_"
  | .platformIntegration => "int_"
  | .syncState => "syc_"

/-- Go `strings.HasPrefix s p`. -/
def goHasPrefix (s p : String) : Bool :=
  p.data.isPrefixOf s.data

namespace ID

/-- `ID[T].validate` (backend/pkg/id/base.go): ok iff the stored value
starts with the resource's prefix, otherwise the validation error. -/
def validate (r : Resource) (s : String) : Except String Unit :=
  if goHasPrefix s r.prefixOf then .ok ()
  else .error ("Invalid ID prefix: " ++ s ++ ", " ++ r.prefixOf)

/-- `New[T]` (backend/pkg/id/base.go): construct an ID from a string,
validating the prefix. -/
def New (r : Resource) (v : String) : Except String String :=
  match validate r v with
  | .ok _ => .ok v
  | .error e => .error e

/-- `NewGeneration[T]` (backend/pkg/id/base.go): prefix ++ fresh xid
suffix; the generated suffix is passed explicitly. -/
def NewGeneration (r : Resource) (xidSuffix : String) : String :=
  r.prefixOf ++ xidSuffix

/-- A database value handed to `ID[T].Scan`. -/
inductive SQLValue
  | nullV
  | strV (s : String)
  | bytesV (s : String)
  | otherV
deriving DecidableEq

/-- `ID[T].Scan` (backend/pkg/id/base.go).  `ok none` is the `nil` case
(value left unset); `bytesV` carries the byte slice as a string. -/
def Scan (r : Resource) (v : SQLValue) : Except String (Option String) :=
  match v with
  | .nullV => .ok none
  | .strV s =>
      match New r s with
      | .ok i => .ok (some i)
      | .error e => .error e
  | .bytesV s =>
      if s.length = 0 then .error "no value for the ID"
      else
        match New r s with
        | .ok i => .ok (some i)
        | .error e => .error e
  | .otherV => .error "incompatible type for ID"

/-- A decoded JSON token handed to `ID[T].UnmarshalJSON`: either a JSON
string or some other JSON value (which `json.Unmarshal` into a `string`
rejects). -/
inductive JSONValue
  | jstr (s : String)
  | jother
deriving DecidableEq

/-- `ID[T].UnmarshalJSON` (backend/pkg/id/base.go): decode a JSON string,
then `initValues` (= validate). -/
def UnmarshalJSON (r : Resource) (v : JSONValue) : Except String String :=
  match v with
  | .jstr s => New r s
  | .jother => .error "json: cannot unmarshal value into string"

end ID

/-! ## Credential encryption (backend/internal/crypto/encryption.go)

Plaintexts and raw cipher data are byte lists (`List Nat`, each entry
`< 256`): Go strings are byte sequences, so this covers non-ASCII
plaintexts.  The standard library's `base64.StdEncoding` is implemented
concretely; AES-256-GCM (`crypto/aes` + `cipher.NewGCM`) is an external
primitive and is modelled as an abstract seal/open pair whose AEAD
contract enters the theorems as hypotheses.  The random nonce drawn from
`crypto/rand` is an explicit parameter. -/

/-- Standard base64 alphabet: the character for a six-bit group. -/
def b64CharOfSextet (n : Nat) : Char :=
  if n < 26 then Char.ofNat (65 + n)
  else if n < 52 then Char.ofNat (97 + (n - 26))
  else if n < 62 then Char.ofNat (48 + (n - 52))
  else if n = 62 then '+' else '/'

/-- Standard base64 alphabet: the six-bit group for a character, if any. -/
def b64SextetOfChar (c : Char) : Option Nat :=
  if 65 ≤ c.toNat ∧ c.toNat ≤ 90 then some (c.toNat - 65)
  else if 97 ≤ c.toNat ∧ c.toNat ≤ 122 then some (c.toNat - 97 + 26)
  else if 48 ≤ c.toNat ∧ c.toNat ≤ 57 then some (c.toNat - 48 + 52)
  else if c = '+' then some 62
  else if c = '/' then some 63
  else none

/-- `base64.StdEncoding.EncodeToString`: three bytes become four
characters, with `=` padding for a final group of one or two bytes. -/
def b64EncodeChars : List Nat → List Char
  | [] => []
  | [a] => [b64CharOfSextet (a / 4), b64CharOfSextet (a % 4 * 16), '=', '=']
  | [a, b] => [b64CharOfSextet (a / 4), b64CharOfSextet (a % 4 * 16 + b / 16),
      b64CharOfSextet (b % 16 * 4), '=']
  | a :: b :: c :: rest =>
      b64CharOfSextet (a / 4) :: b64CharOfSextet (a % 4 * 16 + b / 16) ::
        b64CharOfSextet (b % 16 * 4 + c / 64) :: b64CharOfSextet (c % 64) ::
        b64EncodeChars rest

/-- `base64.StdEncoding.DecodeString`: inverse of the encoder; `none` on
malformed input (wrong length, bad character, interior padding). -/
def b64DecodeChars : List Char → Option (List Nat)
  | [] => some []
  | c1 :: c2 :: c3 :: c4 :: rest =>
      match b64SextetOfChar c1, b64SextetOfChar c2 with
      | some s1, some s2 =>
          if c3 = '=' then
            if c4 = '=' ∧ rest = [] then some [s1 * 4 + s2 / 16] else none
          else
            match b64SextetOfChar c3 with
            | some s3 =>
                if c4 = '=' then
                  if rest = [] then
                    some [s1 * 4 + s2 / 16, s2 % 16 * 16 + s3 / 4]
                  else none
                else
                  match b64SextetOfChar c4, b64DecodeChars rest with
                  | some s4, some tail =>
                      some ((s1 * 4 + s2 / 16) :: (s2 % 16 * 16 + s3 / 4) ::
                        (s3 % 4 * 64 + s4) :: tail)
                  | _, _ => none
            | none => none
      | _, _ => none
  | _ => none

/-- String-level base64 encoder. -/
def base64Encode (data : List Nat) : String := ⟨b64EncodeChars data⟩

/-- String-level base64 decoder. -/
def base64Decode (s : String) : Option (List Nat) := b64DecodeChars s.data

/-- Abstract AES-256-GCM AEAD under the fixed process key: `Seal nonce pt`
is the ciphertext-plus-tag, `Open nonce ct` authenticates and decrypts.
The AEAD contract (`Open` inverts `seal`, sealed output is non-empty and
byte-valued) is assumed where the round-trip theorems need it. -/
structure GCM where
  nonceSize : Nat
  Seal : List Nat → List Nat → List Nat
  Open : List Nat → List Nat → Option (List Nat)

/-- `EncryptionVersion` constant of encryption.go. -/
def EncryptionVersion : String := "v1"

/-- `encrypt` (encryption.go): empty plaintext maps to the empty string;
otherwise base64 of `aesGCM.Seal(nonce, nonce, plaintext, nil)`, whose
result is the nonce followed by the sealed data. -/
def encrypt (g : GCM) (nonce plaintext : List Nat) : String :=
  if plaintext = [] then ""
  else base64Encode (nonce ++ g.Seal nonce plaintext)

/-- `encryptWithVersion` (encryption.go). -/
def encryptWithVersion (g : GCM) (nonce plaintext : List Nat) : String :=
  if plaintext = [] then ""
  else EncryptionVersion ++ ":" ++ encrypt g nonce plaintext

/-- Go `strings.Cut s ":"`: the text before the first `':'`, the text
after it, and whether a `':'` occurs. -/
def stringsCut (s : String) : String × String × Bool :=
  if (':') ∈ s.data then
    (⟨s.data.takeWhile (· ≠ ':')⟩, ⟨(s.data.dropWhile (· ≠ ':')).tail⟩, true)
  else (s, "", false)

/-- `decrypt` (encryption.go): empty ciphertext decrypts to the empty
plaintext without error; otherwise base64-decode, check the nonce fits,
split nonce and sealed data, and open. -/
def decrypt (g : GCM) (ciphertext : String) : Except String (List Nat) :=
  if ciphertext = "" then .ok []
  else
    match base64Decode ciphertext with
    | none => .error "illegal base64 data"
    | some data =>
        if data.length < g.nonceSize then .error "ciphertext too short"
        else
          match g.Open (data.take g.nonceSize) (data.drop g.nonceSize) with
          | some plaintext => .ok plaintext
          | none => .error "cipher: message authentication failed"

/-- `decryptWithVersion` (encryption.go): empty envelope is the empty
plaintext; an envelope with no `':'` is invalid; the version before the
`':'` must be empty (legacy) or `v1`, anything else is unsupported. -/
def decryptWithVersion (g : GCM) (encrypted : String) : Except String (List Nat) :=
  if encrypted = "" then .ok []
  else
    let cut := stringsCut encrypted
    if cut.2.2 = false then .error "invalid secret format"
    else if cut.1 = "" ∨ cut.1 = EncryptionVersion then decrypt g cut.2.1
    else .error ("unsupported encryption version: " ++ cut.1)

/-- A concrete AEAD instance satisfying the GCM contract, used to witness
the hypothesised theorems: seal appends a 16-byte tag of zeros, open
strips it. -/
def toyGCM : GCM where
  nonceSize := 12
  Seal := fun _ pt => pt ++ List.replicate 16 0
  Open := fun _ ct => if ct.length < 16 then none else some (ct.take (ct.length - 16))

/-! ## Inventory sync manager (src/unnamed/part_024)

`SyncStatus` and `EntityType` are Go string types in both the manager and
the generated `core` package, so they are modelled as `String` constants.
Database reads, the task queue, clock reads and generated IDs are
environment inputs; database writes and enqueues are recorded as an effect
trace.  `WithTx` (backend/internal/db/db.go) commits the callback's state
on success and restores the pre-transaction state on error. -/

/-- Manager `SyncStatusPending`. -/
def SyncStatusPending : String := "pending"

/-- Manager `SyncStatusInProgress`. -/
def SyncStatusInProgress : String := "in_progress"

/-- Manager `SyncStatusCompleted`. -/
def SyncStatusCompleted : String := "completed"

/-- Manager `SyncStatusFailed`. -/
def SyncStatusFailed : String := "failed"

/-- Manager `SyncStatusNeverSynced`. -/
def SyncStatusNeverSynced : String := "never_synced"

/-- Manager `SyncStatusPartialSyncOnly`. -/
def SyncStatusPartialSyncOnly : String := "partial_sync_only"

/-- Manager `EntityTypeFullSync`. -/
def EntityTypeFullSync : String := "full_sync"

/-- Generated `core.SyncStatus` values (migration 001 enum `sync_status`). -/
def CoreSyncStatusPending : String := "pending"

/-- Core `in_progress`. -/
def CoreSyncStatusInProgress : String := "in_progress"

/-- Core `completed`. -/
def CoreSyncStatusCompleted : String := "completed"

/-- Core `failed`. -/
def CoreSyncStatusFailed : String := "failed"

/-- Generated `core.EntityTypeFullSync` (migration 001 enum `entity_type`). -/
def CoreEntityTypeFullSync : String := "full_sync"

/-- `FromCoreStatus` (part_024): core status to manager status, defaulting
to pending. -/
def FromCoreStatus (coreStatus : String) : String :=
  if coreStatus = CoreSyncStatusPending then SyncStatusPending
  else if coreStatus = CoreSyncStatusInProgress then SyncStatusInProgress
  else if coreStatus = CoreSyncStatusCompleted then SyncStatusCompleted
  else if coreStatus = CoreSyncStatusFailed then SyncStatusFailed
  else SyncStatusPending

/-- `ToCoreStatus` (part_024): manager status to core status, defaulting
to pending. -/
def ToCoreStatus (managerStatus : String) : String :=
  if managerStatus = SyncStatusPending then CoreSyncStatusPending
  else if managerStatus = SyncStatusInProgress then CoreSyncStatusInProgress
  else if managerStatus = SyncStatusCompleted then CoreSyncStatusCompleted
  else if managerStatus = SyncStatusFailed then CoreSyncStatusFailed
  else CoreSyncStatusPending

/-- `ToCoreEntity` (part_024), restricted to the entity types the verified
paths use; anything unknown defaults to `full_sync` as in the source. -/
def ToCoreEntity (managerEntity : String) : String :=
  if managerEntity = EntityTypeFullSync then CoreEntityTypeFullSync
  else if managerEntity = "product" then "products"
  else if managerEntity = "inventory_item" then "inventory"
  else if managerEntity = "order" then "orders"
  else if managerEntity = "location" then "locations"
  else CoreEntityTypeFullSync

/-- `30 * time.Minute` in nanoseconds (Go `time.Duration` units). -/
def thirtyMinutesNs : Int := 1800000000000

/-- A `core.SyncState` row (queries/core/sync_states.sql).  Timestamps are
Unix nanoseconds; `none` models an invalid (NULL) `pgtype` value. -/
structure SyncStateRow where
  id : String
  integrationId : String
  entityType : String
  lastSyncedAt : Option Int
  syncStatus : String
  errorMessage : Option String
deriving DecidableEq

/-- A `core.PlatformIntegration` row (the fields the manager uses). -/
structure PlatformIntegration where
  id : String
  shopId : String
  platformShopId : String
deriving DecidableEq

/-- Manager `SyncResult`. -/
structure SyncResult where
  integrationId : String
  status : String
  lastSynced : Option Int
  errorMessage : String
deriving DecidableEq

/-- A database write or queue operation performed by the orchestrator. -/
inductive Effect
  | createIntegration (integ : PlatformIntegration)
  | upsertSyncState (row : SyncStateRow)
  | enqueueTask (integrationId shopDomain accessToken : String)
deriving DecidableEq

/-- `updateSyncState` (part_024): the row handed to `UpsertSyncState` —
error message only when non-empty, `last_synced_at` only when the new
status is completed. -/
def updateSyncStateRow (newId integrationId entityType status errorMessage :
    String) (now : Int) : SyncStateRow where
  id := newId
  integrationId := integrationId
  entityType := ToCoreEntity entityType
  lastSyncedAt := if status = SyncStatusCompleted then some now else none
  syncStatus := ToCoreStatus status
  errorMessage := if errorMessage ≠ "" then some errorMessage else none

/-- `shouldSkipSync` (part_024) as a function of the `full_sync` sync-state
lookup (`none` both when no row exists and when the read errors, as the
source treats any `GetSyncState` error as "no sync state exists") and the
current time. -/
def shouldSkipSync (syncState : Option SyncStateRow) (now : Int) :
    Bool × String :=
  match syncState with
  | none => (false, "")
  | some st =>
      if st.syncStatus = CoreSyncStatusInProgress then
        (true, SyncStatusInProgress)
      else if st.syncStatus = CoreSyncStatusCompleted ∧ st.lastSyncedAt.isSome ∧
          now - st.lastSyncedAt.getD 0 < thirtyMinutesNs then
        (true, SyncStatusCompleted)
      else (false, "")

/-- `SyncRequest` (part_024). -/
structure SyncRequest where
  userId : String
  shopDomain : String
  force : Bool
deriving DecidableEq

/-- The environment read by one `TriggerShopifySync` call: lookup results,
generated IDs, transaction and enqueue outcomes, and the clock. -/
structure TriggerEnv where
  userExists : Bool
  shop : Option String
  shopifyUserFound : Bool
  accessToken : String
  existingIntegration : Option PlatformIntegration
  createdIntegrationId : String
  createOk : Bool
  fullSyncState : Option SyncStateRow
  inProgressUpsertOk : Bool
  enqueueError : Option String
  failedResetOk : Bool
  now : Int
  newStateId : String
  newStateId2 : String
deriving DecidableEq

/-- The tail of `TriggerShopifySync` after the dedup gate: write
`in_progress` (in its own transaction), then enqueue; on enqueue failure
reset the state to failed with the fixed message and surface the wrapped
enqueue error. -/
def triggerProceed (env : TriggerEnv) (req : SyncRequest)
    (integ : PlatformIntegration) (effs : List Effect) :
    Except String SyncResult × List Effect :=
  if ¬env.inProgressUpsertOk then
    (.error "failed to set sync state to in_progress", effs)
  else
    let effs := effs ++ [.upsertSyncState (updateSyncStateRow env.newStateId
      integ.id EntityTypeFullSync SyncStatusInProgress "" env.now)]
    match env.enqueueError with
    | some e =>
        let effs := if env.failedResetOk then
            effs ++ [.upsertSyncState (updateSyncStateRow env.newStateId2
              integ.id EntityTypeFullSync SyncStatusFailed
              "failed to enqueue sync task" env.now)]
          else effs
        (.error ("failed to enqueue sync task: " ++ e), effs)
    | none =>
        (.ok ⟨integ.id, SyncStatusInProgress, none, ""⟩,
          effs ++ [.enqueueTask integ.id req.shopDomain env.accessToken])

/-- `TriggerShopifySync` (part_024): validate user, shop and token, get or
create the integration, apply the dedup gate unless forced, then proceed.
A freshly created integration has no sync-state rows (its ID is new), so
the gate's `GetSyncState` lookup is `none` in that case. -/
def TriggerShopifySync (env : TriggerEnv) (req : SyncRequest) :
    Except String SyncResult × List Effect :=
  if ¬env.userExists then (.error "failed to get user", [])
  else
    match env.shop with
    | none => (.error "shop not found", [])
    | some shopId =>
        if ¬env.shopifyUserFound then (.error "failed to get access token", [])
        else if env.accessToken = "" then
          (.error "no access token found for user and shop", [])
        else
          match env.existingIntegration with
          | some integ =>
              if ¬req.force ∧ (shouldSkipSync env.fullSyncState env.now).1 then
                (.ok ⟨integ.id, (shouldSkipSync env.fullSyncState env.now).2,
                  none, ""⟩, [])
              else triggerProceed env req integ []
          | none =>
              if ¬env.createOk then (.error "failed to get/create integration", [])
              else
                let integ : PlatformIntegration :=
                  ⟨env.createdIntegrationId, shopId, req.shopDomain⟩
                if ¬req.force ∧ (shouldSkipSync none env.now).1 then
                  (.ok ⟨integ.id, (shouldSkipSync none env.now).2, none, ""⟩,
                    [.createIntegration integ])
                else triggerProceed env req integ [.createIntegration integ]

/-- Result of `GetPlatformIntegrationByShopAndType`: found, `pgx.ErrNoRows`,
or another database error. -/
inductive IntegrationLookup
  | found (integ : PlatformIntegration)
  | noRows
  | dbError
deriving DecidableEq

/-- The environment read by one `GetSyncStatus` call. -/
structure StatusEnv where
  shopFound : Bool
  integration : IntegrationLookup
  syncStates : Option (List SyncStateRow)
deriving DecidableEq

/-- `GetSyncStatus` (part_024): `never_synced` without an integration or
without sync-state rows, `partial_sync_only` when rows exist but none is
`full_sync`, otherwise the first `full_sync` row's converted status with
its error message and last-synced time when present. -/
def GetSyncStatus (env : StatusEnv) : Except String SyncResult :=
  if ¬env.shopFound then .error "shop not found"
  else
    match env.integration with
    | .dbError => .error "failed to get integration"
    | .noRows => .ok ⟨"", SyncStatusNeverSynced, none, ""⟩
    | .found integ =>
        match env.syncStates with
        | none => .error "failed to get sync states"
        | some states =>
            if states = [] then .ok ⟨integ.id, SyncStatusNeverSynced, none, ""⟩
            else
              match states.find? (fun st => st.entityType = CoreEntityTypeFullSync) with
              | some st =>
                  .ok ⟨integ.id, FromCoreStatus st.syncStatus,
                    st.lastSyncedAt, st.errorMessage.getD ""⟩
              | none => .ok ⟨integ.id, SyncStatusPartialSyncOnly, none, ""⟩

/-- The persistent database state relevant to one integration's pipeline
run: its `full_sync` row and a counter of applied batch-upsert writes. -/
structure SyncDB where
  fullSyncState : Option SyncStateRow
  dataBatches : Nat
deriving DecidableEq

/-- `WithTx` (backend/internal/db/db.go): run the callback on the current
state; commit its state on success, restore the original state (rollback)
on error. -/
def withTx (db : SyncDB) (fn : SyncDB → Except String Unit × SyncDB) :
    Except String Unit × SyncDB :=
  match fn db with
  | (.ok _, s) => (.ok (), s)
  | (.error e, _) => (.error e, db)

/-- `handleSyncError` (part_024): wrap the error, upsert the `full_sync`
state to failed with the wrapped message **using the caller's transaction
state**, and return the wrapped error. -/
def handleSyncError (newId integrationId message errStr : String) (now : Int)
    (tx : SyncDB) : String × SyncDB :=
  let fullError := message ++ ": " ++ errStr
  (fullError, { tx with fullSyncState := some (updateSyncStateRow newId
    integrationId EntityTypeFullSync SyncStatusFailed fullError now) })

/-- The environment read by one `SyncInventory` run: lookups, the fetch
and batch outcomes (with the number of batch writes each phase applies),
and generated IDs. -/
structure SyncEnv where
  integration : Option PlatformIntegration
  shopifyUsersOk : Bool
  shopifyUsers : List String
  fetchError : Option String
  fetchBatches : Nat
  batchError : Option String
  partialBatches : Nat
  completedUpsertOk : Bool
  now : Int
  newStateId : String
  newStateId2 : String
deriving DecidableEq

/-- `SyncInventory` (part_024): everything — integration lookup, token
resolution, fetch, normalize/batch-upsert, and the terminal state write —
runs inside one `WithTx` transaction; `handleSyncError` is called with
that same transaction. -/
def SyncInventory (env : SyncEnv) (db : SyncDB) :
    Except String Unit × SyncDB :=
  withTx db fun tx =>
    match env.integration with
    | none => (.error "failed to get platform integration", tx)
    | some integ =>
        if ¬env.shopifyUsersOk then
          (.error "failed to get shopify user: failed to get shopify users", tx)
        else if env.shopifyUsers = [] then
          (.error "failed to get shopify user: no shopify users found for store", tx)
        else
          match env.shopifyUsers.find? (fun t => t ≠ "") with
          | none =>
              (.error
                "failed to get shopify user: no shopify user with valid access token found",
                tx)
          | some accessToken =>
              if accessToken = "" then (.error "no access token found", tx)
              else
                match env.fetchError with
                | some e =>
                    let r := handleSyncError env.newStateId integ.id
                      "failed to fetch data from API" e env.now tx
                    (.error r.1, r.2)
                | none =>
                    match env.batchError with
                    | some e =>
                        let tx := { tx with dataBatches :=
                          tx.dataBatches + env.partialBatches }
                        let r := handleSyncError env.newStateId integ.id
                          "failed to batch sync data" e env.now tx
                        (.error r.1, r.2)
                    | none =>
                        let tx := { tx with dataBatches :=
                          tx.dataBatches + env.fetchBatches }
                        if ¬env.completedUpsertOk then
                          (.error "failed to update sync state to completed", tx)
                        else
                          let row := updateSyncStateRow env.newStateId2
                            integ.id EntityTypeFullSync SyncStatusCompleted
                            "" env.now
                          (.ok (), { tx with fullSyncState := some row })

/-- Concrete environment for the enqueue-failure run: the enqueue fails
with `"connection refused"`. -/
def enqueueFailEnv : TriggerEnv where
  userExists := true
  shop := some "sps_1"
  shopifyUserFound := true
  accessToken := "tok"
  existingIntegration := some ⟨"int_1", "sps_1", "demo.myshopify.com"⟩
  createdIntegrationId := ""
  createOk := true
  fullSyncState := none
  inProgressUpsertOk := true
  enqueueError := some "connection refused"
  failedResetOk := true
  now := 0
  newStateId := "syc_1"
  newStateId2 := "syc_2"

/-- Concrete request for the enqueue-failure run. -/
def enqueueFailReq : SyncRequest where
  userId := "usr_1"
  shopDomain := "demo.myshopify.com"
  force := false

/-- Concrete environment for the failing pipeline run: the fetch phase
fails with an upstream 500. -/
def fetchFailEnv : SyncEnv where
  integration := some ⟨"int_1", "sps_1", "demo.myshopify.com"⟩
  shopifyUsersOk := true
  shopifyUsers := ["tok"]
  fetchError := some "failed to fetch products: status 500"
  fetchBatches := 3
  batchError := none
  partialBatches := 0
  completedUpsertOk := true
  now := 100
  newStateId := "syc_9"
  newStateId2 := "syc_10"

/-- Database state before the failing pipeline run: the trigger has set
`full_sync` to `in_progress`. -/
def fetchFailDb : SyncDB where
  fullSyncState := some ⟨"syc_0", "int_1", "full_sync", none, "in_progress", none⟩
  dataBatches := 0

/-- Concrete environment with the enqueue succeeding. -/
def enqueueOkEnv : TriggerEnv :=
  { enqueueFailEnv with enqueueError := none }

/-- Concrete environment with an `in_progress` `full_sync` row. -/
def gateInProgressEnv : TriggerEnv :=
  let row : SyncStateRow :=
    ⟨"syc_0", "int_1", "full_sync", none, "in_progress", none⟩
  { enqueueFailEnv with fullSyncState := some row }

/-- A non-empty normalized domain always ends in `.myshopify.com`. -/
lemma normalizeDomainList_suffix (l : List Char) :
    normalizeDomainList l = [] ∨
      myshopifySuffix.isSuffixOf (normalizeDomainList l) = true := by
  unfold normalizeDomainList
  by_cases h : trimSpace l = []
  · simp [h]
  · simp only [h, if_false]
    set d := trimTrailing (trimLeading (trimLeading (trimSpace l) httpsScheme) httpScheme) ['/'] with hd
    by_cases hs : myshopifySuffix.isSuffixOf d = true
    · right; simp [hs]
    · right
      simp only [hs]
      simp only [Bool.false_eq_true, if_false]
      exact List.isSuffixOf_iff_suffix.mpr (List.suffix_append d myshopifySuffix)

/-- Helper: dropping while a predicate fails on the head is the identity. -/
lemma dropWhile_eq_self_of_head (p : Char → Bool) (l : List Char)
    (h : ∀ c, l.head? = some c → p c = false) : l.dropWhile p = l := by
  cases l with
  | nil => rfl
  | cons c cs =>
      have hc : p c = false := h c rfl
      simp [List.dropWhile, hc]

/-- Idempotence of `normalizeDomainList` on inputs whose normal form starts
neither with a scheme nor with whitespace. -/
lemma normalizeDomainList_idem (l : List Char)
    (h1 : httpsScheme.isPrefixOf (normalizeDomainList l) = false)
    (h2 : httpScheme.isPrefixOf (normalizeDomainList l) = false)
    (h3 : goIsSpace ((normalizeDomainList l).headD 'a') = false) :
    normalizeDomainList (normalizeDomainList l) = normalizeDomainList l := by
  rcases normalizeDomainList_suffix l with h0 | h0
  · rw [h0]; rfl
  · set o := normalizeDomainList l with ho
    obtain ⟨t, ht⟩ := List.isSuffixOf_iff_suffix.mp h0
    have hne : o ≠ [] := by
      rw [← ht]; simp [myshopifySuffix]
    have hlast : o.getLast? = some 'm' := by
      rw [← ht, List.getLast?_append_of_ne_nil]
      · decide
      · decide
    have hfront : o.dropWhile goIsSpace = o := by
      refine dropWhile_eq_self_of_head _ _ (fun c hc => ?_)
      have : o.headD 'a' = c := by
        rw [List.headD_eq_head?, hc]; rfl
      rw [← this]; exact h3
    have hback : o.reverse.dropWhile goIsSpace = o.reverse := by
      refine dropWhile_eq_self_of_head _ _ (fun c hc => ?_)
      rw [List.head?_reverse, hlast] at hc
      cases hc; decide
    have htrim : trimSpace o = o := by
      unfold trimSpace
      rw [hfront, hback, List.reverse_reverse]
    have hslash : (['/'] : List Char).isSuffixOf o = false := by
      cases hsl : (['/'] : List Char).isSuffixOf o
      · rfl
      · obtain ⟨t', ht'⟩ := List.isSuffixOf_iff_suffix.mp hsl
        rw [← ht', List.getLast?_append_of_ne_nil] at hlast
        · simp at hlast
        · decide
    unfold normalizeDomainList
    rw [htrim]
    simp only [hne, if_false]
    unfold trimLeading trimTrailing
    simp [h1, h2, hslash, h0]

/-! ## Claim C7 (corrected) and claim C10 (corrected) -/

/-- C7 counterexample: `NormalizeDomain` strips at most one trailing slash
(`strings.TrimSuffix`), so an input with two trailing slashes does not
normalize to the value the claim describes (stripping of all trailing
slashes would give `"demo.myshopify.com"`). -/
theorem normalizeDomain_trailing_slash_counterexample :
    NormalizeDomain "https://demo.myshopify.com//"
        = "demo.myshopify.com/.myshopify.com" ∧
      NormalizeDomain "https://demo.myshopify.com//" ≠ "demo.myshopify.com" := by
  constructor
  · rfl
  · decide

/-- C7 (amended): the value used for shop lookup is the input trimmed of
surrounding whitespace, stripped of a leading `https://` and then of a
leading `http://` scheme and of at most one trailing slash, and suffixed
with `.myshopify.com` when that suffix is missing; in particular the inputs
`"https://demo.myshopify.com/"`, `"demo"` and `"demo.myshopify.com"` all
normalize to the same value `"demo.myshopify.com"`. -/
theorem normalizeDomain_spec_amended :
    (∀ s : String, NormalizeDomain s = specNormalizeDomain s) ∧
      NormalizeDomain "https://demo.myshopify.com/" = "demo.myshopify.com" ∧
      NormalizeDomain "demo" = "demo.myshopify.com" ∧
      NormalizeDomain "demo.myshopify.com" = "demo.myshopify.com" := by
  refine ⟨fun s => ?_, rfl, rfl, rfl⟩
  unfold NormalizeDomain specNormalizeDomain normalizeDomainList
  unfold trimLeading trimTrailing
  by_cases h : trimSpace s.data = []
  · simp [h]
  · simp [h, List.dropLast_eq_take]

/-- C10 counterexample: `NormalizeDomain` is not idempotent; an input whose
normalized form still carries a scheme prefix gets normalized differently a
second time. -/
theorem normalizeDomain_idem_counterexample :
    NormalizeDomain "http://http://x" = "http://x.myshopify.com" ∧
      NormalizeDomain (NormalizeDomain "http://http://x")
        ≠ NormalizeDomain "http://http://x" := by
  constructor
  · rfl
  · decide

/-- C10 (amended): `NormalizeDomain` is idempotent on every input whose
normalized form does not begin with an `http://` or `https://` scheme and
does not begin with a whitespace character; in particular the empty string
maps to itself. -/
theorem normalizeDomain_idem_amended :
    (∀ s : String,
        httpsScheme.isPrefixOf (NormalizeDomain s).data = false →
        httpScheme.isPrefixOf (NormalizeDomain s).data = false →
        goIsSpace ((NormalizeDomain s).data.headD 'a') = false →
        NormalizeDomain (NormalizeDomain s) = NormalizeDomain s) ∧
      NormalizeDomain "" = "" := by
  refine ⟨fun s h1 h2 h3 => ?_, rfl⟩
  exact congrArg String.mk (normalizeDomainList_idem s.data h1 h2 h3)

/-- C10 witness: the idempotence hypotheses hold and idempotence follows for
the concrete input `"demo"`. -/
theorem normalizeDomain_idem_witness :
    NormalizeDomain (NormalizeDomain "demo") = NormalizeDomain "demo" :=
  normalizeDomain_idem_amended.1 "demo" (by decide) (by decide) (by decide)

/-- Helper: a list is a prefix of itself followed by anything. -/
lemma isPrefixOf_append_self (l t : List Char) : l.isPrefixOf (l ++ t) = true := by
  induction l with
  | nil => simp [List.isPrefixOf]
  | cons c cs ih => simp [List.isPrefixOf, ih]

/-! ## Claim C5 (confirmed) -/

/-- C5: every generated ID begins with its resource's prefix, and
constructing an ID from a string without that prefix — via `New`, JSON
unmarshalling, or database `Scan` — returns the validation error instead of
an ID (an empty byte slice is rejected even earlier with its own error). -/
theorem id_prefix_invariant :
    (∀ (r : Resource) (xidSuffix : String),
        goHasPrefix (ID.NewGeneration r xidSuffix) r.prefixOf = true) ∧
    (∀ (r : Resource) (s : String), goHasPrefix s r.prefixOf = false →
        ID.New r s = .error ("Invalid ID prefix: " ++ s ++ ", " ++ r.prefixOf) ∧
        ID.UnmarshalJSON r (.jstr s)
          = .error ("Invalid ID prefix: " ++ s ++ ", " ++ r.prefixOf) ∧
        ID.Scan r (.strV s)
          = .error ("Invalid ID prefix: " ++ s ++ ", " ++ r.prefixOf) ∧
        (s.length ≠ 0 → ID.Scan r (.bytesV s)
          = .error ("Invalid ID prefix: " ++ s ++ ", " ++ r.prefixOf))) := by
  constructor
  · intro r xidSuffix
    show (r.prefixOf.data.isPrefixOf (r.prefixOf ++ xidSuffix).data) = true
    rw [String.data_append]
    exact isPrefixOf_append_self _ _
  · intro r s h
    have hnew : ID.New r s
        = .error ("Invalid ID prefix: " ++ s ++ ", " ++ r.prefixOf) := by
      simp [ID.New, ID.validate, h]
    refine ⟨hnew, by simp [ID.UnmarshalJSON, hnew], by simp [ID.Scan, hnew],
      fun hs => ?_⟩
    simp [ID.Scan, hnew, hs]

/-- C5 witness: at the concrete resource `user` and string `"prd_abc"` the
prefix check fails and all construction paths return the validation error;
a generated product ID carries the `prd_` prefix. -/
theorem id_prefix_invariant_witness :
    goHasPrefix "prd_abc" (Resource.user).prefixOf = false ∧
      ID.New .user "prd_abc"
        = .error ("Invalid ID prefix: " ++ "prd_abc" ++ ", "
            ++ (Resource.user).prefixOf) ∧
      goHasPrefix (ID.NewGeneration .product "cr2mdmy4")
        (Resource.product).prefixOf = true :=
  ⟨by decide, (id_prefix_invariant.2 .user "prd_abc" (by decide)).1,
    id_prefix_invariant.1 .product "cr2mdmy4"⟩

/-! ## Claim C6 (confirmed) -/

/-- C6: enum normalization is total onto the closed sets: every normalized
product status renders into the `product_status` enum set, every financial
status into the `financial_status` set, every fulfillment status into the
`fulfillment_status` set, and every external value outside the respective
set maps to the documented default `draft` / `pending` / `null`. -/
theorem enum_normalization_total :
    (∀ s : String, (normalizeProductStatus s).toDbString
        ∈ (["active", "archived", "draft"] : List String)) ∧
    (∀ s : String, (normalizeFinancialStatus s).toDbString
        ∈ (["pending", "authorized", "partially_paid", "paid",
            "partially_refunded", "refunded", "voided"] : List String)) ∧
    (∀ o : Option String, (normalizeFulfillmentStatus o).toDbString
        ∈ (["fulfilled", "null", "partial", "restocked"] : List String)) ∧
    (∀ s : String, s ∉ (["active", "archived", "draft"] : List String) →
        normalizeProductStatus s = .draft) ∧
    (∀ s : String,
        s ∉ (["pending", "authorized", "partially_paid", "paid",
              "partially_refunded", "refunded", "voided"] : List String) →
        normalizeFinancialStatus s = .pending) ∧
    (∀ s : String, s ∉ (["fulfilled", "partial", "restocked"] : List String) →
        normalizeFulfillmentStatus (some s) = .nullVal) ∧
    normalizeFulfillmentStatus none = .nullVal := by
  refine ⟨fun s => ?_, fun s => ?_, fun o => ?_, fun s h => ?_, fun s h => ?_,
    fun s h => ?_, rfl⟩
  · cases hps : normalizeProductStatus s <;> simp [ProductStatus.toDbString]
  · cases hfs : normalizeFinancialStatus s <;> simp [FinancialStatus.toDbString]
  · cases hff : normalizeFulfillmentStatus o <;>
      simp [FulfillmentStatus.toDbString]
  · simp only [List.mem_cons, List.not_mem_nil, or_false, not_or] at h
    simp [normalizeProductStatus, h.1, h.2.1, h.2.2]
  · simp only [List.mem_cons, List.not_mem_nil, or_false, not_or] at h
    simp [normalizeFinancialStatus, h.1, h.2.1, h.2.2.1, h.2.2.2.1,
      h.2.2.2.2.1, h.2.2.2.2.2.1, h.2.2.2.2.2.2]
  · simp only [List.mem_cons, List.not_mem_nil, or_false, not_or] at h
    simp [normalizeFulfillmentStatus, h.1, h.2.1, h.2.2]

/-- C6 witness: the default clauses fire on the concrete out-of-set values
`"unknown"` and a missing fulfillment status. -/
theorem enum_normalization_total_witness :
    normalizeProductStatus "unknown" = .draft ∧
      normalizeFinancialStatus "unknown" = .pending ∧
      normalizeFulfillmentStatus (some "unknown") = .nullVal :=
  ⟨enum_normalization_total.2.2.2.1 "unknown" (by decide),
   enum_normalization_total.2.2.2.2.1 "unknown" (by decide),
   enum_normalization_total.2.2.2.2.2.1 "unknown" (by decide)⟩

/-! ## Base64 and envelope lemmas -/

set_option maxHeartbeats 1000000 in
/-- Decoding the alphabet character of a six-bit group recovers the group. -/
lemma b64_sextet_round (n : Nat) (h : n < 64) :
    b64SextetOfChar (b64CharOfSextet n) = some n := by
  interval_cases n <;> decide

/-- The alphabet never produces the padding character. -/
lemma b64_char_ne_eq (n : Nat) (h : n < 64) : b64CharOfSextet n ≠ '=' := by
  interval_cases n <;> decide

/-- Base64 round-trip: decoding an encoded byte list recovers it. -/
lemma b64_decode_encode (l : List Nat) (h : ∀ b ∈ l, b < 256) :
    b64DecodeChars (b64EncodeChars l) = some l := by
  induction l using b64EncodeChars.induct with
  | case1 => rfl
  | case2 a =>
      have ha : a < 256 := h a (by simp)
      have e1 := b64_sextet_round (a / 4) (by omega)
      have e2 := b64_sextet_round (a % 4 * 16) (by omega)
      simp [b64EncodeChars, b64DecodeChars, e1, e2]
      omega
  | case3 a b =>
      have ha : a < 256 := h a (by simp)
      have hb : b < 256 := h b (by simp)
      have e1 := b64_sextet_round (a / 4) (by omega)
      have e2 := b64_sextet_round (a % 4 * 16 + b / 16) (by omega)
      have e3 := b64_sextet_round (b % 16 * 4) (by omega)
      have n3 := b64_char_ne_eq (a % 4 * 16 + b / 16) (by omega)
      have n3' := b64_char_ne_eq (b % 16 * 4) (by omega)
      simp [b64EncodeChars, b64DecodeChars, e1, e2, e3, n3']
      constructor <;> omega
  | case4 a b c rest ih =>
      have ha : a < 256 := h a (by simp)
      have hb : b < 256 := h b (by simp)
      have hc : c < 256 := h c (by simp)
      have hrest := ih (fun x hx => h x (by simp [hx]))
      have e1 := b64_sextet_round (a / 4) (by omega)
      have e2 := b64_sextet_round (a % 4 * 16 + b / 16) (by omega)
      have e3 := b64_sextet_round (b % 16 * 4 + c / 64) (by omega)
      have e4 := b64_sextet_round (c % 64) (by omega)
      have n3 := b64_char_ne_eq (b % 16 * 4 + c / 64) (by omega)
      have n4 := b64_char_ne_eq (c % 64) (by omega)
      simp [b64EncodeChars, b64DecodeChars, e1, e2, e3, e4, n3, n4, hrest]
      refine ⟨by omega, by omega, by omega⟩

/-- Encoding a non-empty byte list yields a non-empty character list. -/
lemma b64EncodeChars_ne_nil (l : List Nat) (h : l ≠ []) :
    b64EncodeChars l ≠ [] := by
  rcases l with _ | ⟨a, _ | ⟨b, _ | ⟨c, rest⟩⟩⟩ <;> simp [b64EncodeChars] at h ⊢

/-- Cutting a `v1:`-prefixed string at the first colon. -/
lemma stringsCut_v1 (E : List Char) :
    stringsCut ⟨'v' :: '1' :: ':' :: E⟩ = ("v1", ⟨E⟩, true) := by
  unfold stringsCut
  have hm : (':') ∈ ('v' :: '1' :: ':' :: E) := by simp
  rw [if_pos hm]
  simp [List.takeWhile, List.dropWhile]

/-- The envelope of a non-empty plaintext, written out as characters. -/
lemma encryptWithVersion_eq (g : GCM) (nonce pt : List Nat) (hpt : pt ≠ []) :
    encryptWithVersion g nonce pt
      = ⟨'v' :: '1' :: ':' :: b64EncodeChars (nonce ++ g.Seal nonce pt)⟩ := by
  unfold encryptWithVersion encrypt
  rw [if_neg hpt, if_neg hpt]
  rfl

/-- Decryption inverts encryption for non-empty plaintexts, given the AEAD
contract at this nonce and plaintext. -/
lemma decryptWithVersion_encrypt (g : GCM) (nonce pt : List Nat)
    (hpt : pt ≠ [])
    (hOpen : g.Open nonce (g.Seal nonce pt) = some pt)
    (hSealNe : g.Seal nonce pt ≠ [])
    (hSealBytes : ∀ b ∈ g.Seal nonce pt, b < 256)
    (hn : nonce.length = g.nonceSize)
    (hnb : ∀ b ∈ nonce, b < 256) :
    decryptWithVersion g (encryptWithVersion g nonce pt) = .ok pt := by
  have hdbytes : ∀ b ∈ nonce ++ g.Seal nonce pt, b < 256 := by
    intro b hb
    rcases List.mem_append.mp hb with h' | h'
    exacts [hnb b h', hSealBytes b h']
  have hdne : nonce ++ g.Seal nonce pt ≠ [] := by
    intro h0
    exact hSealNe (List.append_eq_nil.mp h0).2
  rw [encryptWithVersion_eq g nonce pt hpt]
  unfold decryptWithVersion
  rw [if_neg (by intro h0; have := congrArg String.data h0; simp at this)]
  simp only [stringsCut_v1]
  simp only [EncryptionVersion]
  rw [if_neg (by simp)]
  rw [if_pos (by simp)]
  unfold decrypt
  rw [if_neg (by
    intro h0
    have := congrArg String.data h0
    simp at this
    exact b64EncodeChars_ne_nil _ hdne this)]
  have hdec : base64Decode ⟨b64EncodeChars (nonce ++ g.Seal nonce pt)⟩
      = some (nonce ++ g.Seal nonce pt) := b64_decode_encode _ hdbytes
  simp only [hdec]
  have hlen : ¬((nonce ++ g.Seal nonce pt).length < g.nonceSize) := by
    rw [List.length_append, ← hn]
    omega
  rw [if_neg hlen]
  have htk : (nonce ++ g.Seal nonce pt).take g.nonceSize = nonce := by
    rw [← hn, List.take_left]
  have hdr : (nonce ++ g.Seal nonce pt).drop g.nonceSize = g.Seal nonce pt := by
    rw [← hn, List.drop_left]
  simp only [htk, hdr, hOpen]

/-! ## Claim C4 (confirmed) -/

/-- C4: credential round-trip.  Under the AEAD contract at the given nonce
and plaintext, `Decrypt (Encrypt p) = p` for every byte-level plaintext
(including the empty and non-ASCII ones), a non-empty plaintext encrypts to
an envelope beginning with `v1:`, and the empty plaintext maps to the empty
envelope rather than an error. -/
theorem credential_roundtrip (g : GCM) (nonce pt : List Nat)
    (hOpen : g.Open nonce (g.Seal nonce pt) = some pt)
    (hSealNe : g.Seal nonce pt ≠ [])
    (hSealBytes : ∀ b ∈ g.Seal nonce pt, b < 256)
    (hn : nonce.length = g.nonceSize)
    (hnb : ∀ b ∈ nonce, b < 256) :
    decryptWithVersion g (encryptWithVersion g nonce pt) = .ok pt ∧
      (pt ≠ [] → goHasPrefix (encryptWithVersion g nonce pt) "v1:" = true) ∧
      encryptWithVersion g nonce [] = "" := by
  refine ⟨?_, fun hpt => ?_, rfl⟩
  · by_cases hpt : pt = []
    · subst hpt
      rfl
    · exact decryptWithVersion_encrypt g nonce pt hpt hOpen hSealNe hSealBytes
        hn hnb
  · rw [encryptWithVersion_eq g nonce pt hpt]
    show ("v1:").data.isPrefixOf ('v' :: '1' :: ':'
      :: b64EncodeChars (nonce ++ g.Seal nonce pt)) = true
    exact isPrefixOf_append_self _ _

/-- C4 witness: the round-trip at a concrete 12-byte nonce and the
non-ASCII plaintext `"€"` (UTF-8 bytes `[226, 130, 172]`), using the
concrete `toyGCM` instance. -/
theorem credential_roundtrip_witness :
    decryptWithVersion toyGCM
        (encryptWithVersion toyGCM (List.replicate 12 0) [226, 130, 172])
      = .ok [226, 130, 172] ∧
    goHasPrefix
        (encryptWithVersion toyGCM (List.replicate 12 0) [226, 130, 172])
        "v1:" = true ∧
    encryptWithVersion toyGCM (List.replicate 12 0) [] = "" := by
  have h := credential_roundtrip toyGCM (List.replicate 12 0) [226, 130, 172]
    (by decide) (by decide) (by decide) (by decide) (by decide)
  exact ⟨h.1, h.2.1 (by decide), h.2.2⟩

/-! ## Claim C8 (confirmed) -/

/-- C8: a non-empty envelope whose text before the first `':'` is not a
supported version (the code supports the empty legacy prefix and `v1`) is
rejected with the unsupported-version error, and a non-empty envelope with
no `':'` at all is rejected as invalid. -/
theorem decrypt_unknown_version (g : GCM) (e : String) (he : e ≠ "") :
    ((stringsCut e).2.2 = false →
        decryptWithVersion g e = .error "invalid secret format") ∧
    ((stringsCut e).2.2 = true → (stringsCut e).1 ≠ "" →
        (stringsCut e).1 ≠ EncryptionVersion →
        decryptWithVersion g e
          = .error ("unsupported encryption version: " ++ (stringsCut e).1)) := by
  constructor
  · intro hf
    unfold decryptWithVersion
    rw [if_neg he]
    simp [hf]
  · intro ht h1 h2
    unfold decryptWithVersion
    rw [if_neg he]
    simp [ht, h1, h2]

/-- C8 witness: the concrete envelopes `"v2:abc"` (unknown version `v2`)
and `"noseparator"` (no colon) are both rejected. -/
theorem decrypt_unknown_version_witness :
    decryptWithVersion toyGCM "v2:abc"
        = .error ("unsupported encryption version: " ++ (stringsCut "v2:abc").1) ∧
      decryptWithVersion toyGCM "noseparator" = .error "invalid secret format" :=
  ⟨(decrypt_unknown_version toyGCM "v2:abc" (by decide)).2
      (by decide) (by decide) (by decide),
   (decrypt_unknown_version toyGCM "noseparator" (by decide)).1 (by decide)⟩

/-! ## Orchestrator lemmas -/

/-- When user, shop, token and an existing integration all resolve, a
trigger reduces to the dedup gate over the `full_sync` state, continuing
with `triggerProceed` when the gate does not trip. -/
lemma triggerShopifySync_gate (env : TriggerEnv) (req : SyncRequest)
    (integ : PlatformIntegration) (shopId : String)
    (hu : env.userExists = true) (hs : env.shop = some shopId)
    (hsu : env.shopifyUserFound = true) (ht : env.accessToken ≠ "")
    (hint : env.existingIntegration = some integ) :
    TriggerShopifySync env req =
      if ¬req.force ∧ (shouldSkipSync env.fullSyncState env.now).1 then
        (.ok ⟨integ.id, (shouldSkipSync env.fullSyncState env.now).2, none, ""⟩,
          [])
      else triggerProceed env req integ [] := by
  simp [TriggerShopifySync, hu, hs, hsu, ht, hint]

/-! ## Claim C1 (confirmed) -/

/-- C1: the dedup gate.  With `force=false`: an `in_progress` `full_sync`
row makes the call return the integration's id with status `in_progress`
and perform no write and no enqueue; a `completed` row with a valid
`last_synced_at` within 30 minutes does the same with status `completed`;
with no row, a `failed` row, or a `completed` row past the cooldown the
sync proceeds.  With `force=true` the gate is bypassed and the sync
proceeds. -/
theorem dedup_gate (env : TriggerEnv) (req : SyncRequest)
    (integ : PlatformIntegration) (shopId : String)
    (hu : env.userExists = true) (hs : env.shop = some shopId)
    (hsu : env.shopifyUserFound = true) (ht : env.accessToken ≠ "")
    (hint : env.existingIntegration = some integ) :
    (req.force = false →
      (∀ st, env.fullSyncState = some st →
          st.syncStatus = CoreSyncStatusInProgress →
          TriggerShopifySync env req
            = (.ok ⟨integ.id, SyncStatusInProgress, none, ""⟩, [])) ∧
      (∀ st t, env.fullSyncState = some st →
          st.syncStatus = CoreSyncStatusCompleted →
          st.lastSyncedAt = some t → env.now - t < thirtyMinutesNs →
          TriggerShopifySync env req
            = (.ok ⟨integ.id, SyncStatusCompleted, none, ""⟩, [])) ∧
      (env.fullSyncState = none →
          TriggerShopifySync env req = triggerProceed env req integ []) ∧
      (∀ st, env.fullSyncState = some st →
          st.syncStatus = CoreSyncStatusFailed →
          TriggerShopifySync env req = triggerProceed env req integ []) ∧
      (∀ st t, env.fullSyncState = some st →
          st.syncStatus = CoreSyncStatusCompleted →
          st.lastSyncedAt = some t → thirtyMinutesNs ≤ env.now - t →
          TriggerShopifySync env req = triggerProceed env req integ [])) ∧
    (req.force = true →
        TriggerShopifySync env req = triggerProceed env req integ []) := by
  have hg := triggerShopifySync_gate env req integ shopId hu hs hsu ht hint
  refine ⟨fun hforce => ⟨fun st hst hstat => ?_,
      fun st t hst hstat hlast h30 => ?_, fun hnone => ?_,
      fun st hst hstat => ?_, fun st t hst hstat hlast h30 => ?_⟩,
    fun hforce => ?_⟩
  · have hss : shouldSkipSync env.fullSyncState env.now
        = (true, SyncStatusInProgress) := by
      rw [hst]
      simp [shouldSkipSync, hstat]
    rw [hg, hss]
    simp [hforce]
  · have hss : shouldSkipSync env.fullSyncState env.now
        = (true, SyncStatusCompleted) := by
      rw [hst]
      simp [shouldSkipSync, hstat, hlast, h30, CoreSyncStatusCompleted,
        CoreSyncStatusInProgress]
    rw [hg, hss]
    simp [hforce]
  · have hss : shouldSkipSync env.fullSyncState env.now = (false, "") := by
      rw [hnone]
      rfl
    rw [hg, hss]
    simp [hforce]
  · have hss : shouldSkipSync env.fullSyncState env.now = (false, "") := by
      rw [hst]
      simp [shouldSkipSync, hstat, CoreSyncStatusFailed,
        CoreSyncStatusInProgress, CoreSyncStatusCompleted]
    rw [hg, hss]
    simp [hforce]
  · have hnl : ¬(env.now - t < thirtyMinutesNs) := not_lt.mpr h30
    have hss : shouldSkipSync env.fullSyncState env.now = (false, "") := by
      rw [hst]
      simp [shouldSkipSync, hstat, hlast, hnl, CoreSyncStatusCompleted,
        CoreSyncStatusInProgress]
    rw [hg, hss]
    simp [hforce]
  · rw [hg]
    simp [hforce]

/-- C1 witness: with an existing integration whose `full_sync` row is
`in_progress` and `force=false`, the concrete call returns
`in_progress` for that integration with an empty effect trace. -/
theorem dedup_gate_witness :
    TriggerShopifySync gateInProgressEnv enqueueFailReq
      = (.ok ⟨"int_1", SyncStatusInProgress, none, ""⟩, []) :=
  ((dedup_gate gateInProgressEnv enqueueFailReq
      ⟨"int_1", "sps_1", "demo.myshopify.com"⟩ "sps_1" rfl rfl rfl
      (by decide) rfl).1 rfl).1
    ⟨"syc_0", "int_1", "full_sync", none, "in_progress", none⟩ rfl rfl

/-! ## Claim C3 (corrected) -/

/-- C3 counterexample: when the enqueue fails with `"connection refused"`
the state is reset to failed with the fixed message
`"failed to enqueue sync task"`; no persisted write carries the enqueue
error itself. -/
theorem enqueue_error_counterexample :
    TriggerShopifySync enqueueFailEnv enqueueFailReq
      = (.error "failed to enqueue sync task: connection refused",
        [.upsertSyncState ⟨"syc_1", "int_1", "full_sync", none,
            "in_progress", none⟩,
         .upsertSyncState ⟨"syc_2", "int_1", "full_sync", none, "failed",
            some "failed to enqueue sync task"⟩]) ∧
      (∀ eff ∈ (TriggerShopifySync enqueueFailEnv enqueueFailReq).2,
        eff ≠ .upsertSyncState ⟨"syc_2", "int_1", "full_sync", none, "failed",
          some "connection refused"⟩) := by
  refine ⟨by decide, by decide⟩

/-- C3 (amended): for every trigger that passes the dedup gate, the
`full_sync` state is upserted to `in_progress` strictly before the task is
enqueued (a failed `in_progress` write prevents the enqueue); if the
enqueue fails, the state is reset to failed with the fixed message
`"failed to enqueue sync task"` — the underlying enqueue error is
surfaced to the caller in the wrapped return error but not stored in the
state — and if the enqueue succeeds the call returns `in_progress`. -/
theorem enqueue_ordering_amended (env : TriggerEnv) (req : SyncRequest)
    (integ : PlatformIntegration) (shopId : String)
    (hu : env.userExists = true) (hs : env.shop = some shopId)
    (hsu : env.shopifyUserFound = true) (ht : env.accessToken ≠ "")
    (hint : env.existingIntegration = some integ)
    (hpass : req.force = true ∨
      (shouldSkipSync env.fullSyncState env.now).1 = false) :
    (env.inProgressUpsertOk = false →
        TriggerShopifySync env req
          = (.error "failed to set sync state to in_progress", [])) ∧
    (env.inProgressUpsertOk = true → env.enqueueError = none →
        TriggerShopifySync env req
          = (.ok ⟨integ.id, SyncStatusInProgress, none, ""⟩,
            [.upsertSyncState (updateSyncStateRow env.newStateId integ.id
                EntityTypeFullSync SyncStatusInProgress "" env.now),
             .enqueueTask integ.id req.shopDomain env.accessToken])) ∧
    (env.inProgressUpsertOk = true → env.failedResetOk = true →
        ∀ e, env.enqueueError = some e →
        TriggerShopifySync env req
          = (.error ("failed to enqueue sync task: " ++ e),
            [.upsertSyncState (updateSyncStateRow env.newStateId integ.id
                EntityTypeFullSync SyncStatusInProgress "" env.now),
             .upsertSyncState (updateSyncStateRow env.newStateId2 integ.id
                EntityTypeFullSync SyncStatusFailed
                "failed to enqueue sync task" env.now)])) := by
  have hg := triggerShopifySync_gate env req integ shopId hu hs hsu ht hint
  have hp : TriggerShopifySync env req = triggerProceed env req integ [] := by
    rw [hg]
    rcases hpass with h | h
    · simp [h]
    · simp [h]
  refine ⟨fun hup => ?_, fun hup henq => ?_, fun hup hreset e henq => ?_⟩
  · rw [hp]
    simp [triggerProceed, hup]
  · rw [hp]
    simp [triggerProceed, hup, henq]
  · rw [hp]
    simp [triggerProceed, hup, henq, hreset]

/-- C3 witness: on the concrete successful-enqueue environment the gate
passes, `in_progress` is written, the task is enqueued after it, and the
call returns `in_progress`. -/
theorem enqueue_ordering_witness :
    TriggerShopifySync enqueueOkEnv enqueueFailReq
      = (.ok ⟨"int_1", SyncStatusInProgress, none, ""⟩,
        [.upsertSyncState (updateSyncStateRow "syc_1" "int_1"
            EntityTypeFullSync SyncStatusInProgress "" 0),
         .enqueueTask "int_1" "demo.myshopify.com" "tok"]) :=
  (enqueue_ordering_amended enqueueOkEnv enqueueFailReq
      ⟨"int_1", "sps_1", "demo.myshopify.com"⟩ "sps_1" rfl rfl rfl
      (by decide) rfl (Or.inr (by decide))).2.1 rfl rfl

/-! ## Claim C2 (code_bug) -/

/-- C2: evaluation of `SyncInventory` at a failing fetch.  `handleSyncError`
does write the failed row with the wrapped message — but into the very
transaction that the surrounding `WithTx` then rolls back, so after the
run the persistent `full_sync` state is unchanged (still `in_progress`
from the trigger) and the failure is never recorded. -/
theorem sync_failure_rollback_bug :
    SyncInventory fetchFailEnv fetchFailDb
      = (.error
          "failed to fetch data from API: failed to fetch products: status 500",
         fetchFailDb) ∧
      (SyncInventory fetchFailEnv fetchFailDb).2.fullSyncState
        = some ⟨"syc_0", "int_1", "full_sync", none, "in_progress", none⟩ ∧
      (handleSyncError "syc_9" "int_1" "failed to fetch data from API"
          "failed to fetch products: status 500" 100 fetchFailDb).2.fullSyncState
        = some ⟨"syc_9", "int_1", "full_sync", none, "failed",
            some "failed to fetch data from API: failed to fetch products: status 500"⟩ := by
  refine ⟨by decide, by decide, by decide⟩

/-! ## Claim C9 (confirmed) -/

/-- C9: `GetSyncStatus` classification for an existing shop: `never_synced`
when the integration is missing or it has no sync-state rows;
`partial_sync_only` when rows exist but none is `full_sync`; otherwise the
`full_sync` row's status with its last-synced time and error message when
present. -/
theorem getSyncStatus_classification (env : StatusEnv)
    (hshop : env.shopFound = true) :
    (env.integration = .noRows →
        GetSyncStatus env = .ok ⟨"", SyncStatusNeverSynced, none, ""⟩) ∧
    (∀ integ, env.integration = .found integ →
        (env.syncStates = some [] →
            GetSyncStatus env
              = .ok ⟨integ.id, SyncStatusNeverSynced, none, ""⟩) ∧
        (∀ states, env.syncStates = some states → states ≠ [] →
            ((∀ st ∈ states, st.entityType ≠ CoreEntityTypeFullSync) →
                GetSyncStatus env
                  = .ok ⟨integ.id, SyncStatusPartialSyncOnly, none, ""⟩) ∧
            (∀ st,
                states.find? (fun r => r.entityType = CoreEntityTypeFullSync)
                    = some st →
                GetSyncStatus env
                  = .ok ⟨integ.id, FromCoreStatus st.syncStatus,
                      st.lastSyncedAt, st.errorMessage.getD ""⟩))) := by
  refine ⟨fun hnr => ?_, fun integ hint => ⟨fun hempty => ?_,
    fun states hstates hne => ⟨fun hnofull => ?_, fun st hfind => ?_⟩⟩⟩
  · simp [GetSyncStatus, hshop, hnr]
  · simp [GetSyncStatus, hshop, hint, hempty]
  · have hfind : states.find?
        (fun r => r.entityType = CoreEntityTypeFullSync) = none := by
      rw [List.find?_eq_none]
      intro st hst
      simpa using hnofull st hst
    simp [GetSyncStatus, hshop, hint, hstates, hne, hfind]
  · simp [GetSyncStatus, hshop, hint, hstates, hne, hfind]

/-- C9 witness: a concrete environment whose only sync-state row is a
failed `full_sync` row with an error message and timestamp. -/
theorem getSyncStatus_classification_witness :
    GetSyncStatus ⟨true, .found ⟨"int_1", "sps_1", "demo.myshopify.com"⟩,
        some [⟨"syc_0", "int_1", "full_sync", some 50, "failed",
          some "boom"⟩]⟩
      = .ok ⟨"int_1", FromCoreStatus "failed", some 50,
          (some "boom").getD ""⟩ :=
  (((getSyncStatus_classification _ rfl).2
      ⟨"int_1", "sps_1", "demo.myshopify.com"⟩ rfl).2
      [⟨"syc_0", "int_1", "full_sync", some 50, "failed", some "boom"⟩]
      rfl (by decide)).2
    ⟨"syc_0", "int_1", "full_sync", some 50, "failed", some "boom"⟩ (by decide)

end Forecasting
